import Mathlib

/-!
Verification of the decentralized-oracle / smart-contract pipeline.

The development shallow-embeds the four Python sources:
  simulate_decentralized_oracle_network.py (validator nodes, consensus, HITL fallback, main),
  code/simulate_oracle.py (validate_nlp_entities, generate_hash),
  code/simulate_smart_contract.py (verify_hash, execute_smart_contract, store_on_chain),
  code/medical_nlp_extractor.py (external extraction; consumed via annotated tokens).

Modelling conventions:
  * Confidence scores in the sources are exact two-decimal float literals
    (0.95, 0.90, 0.85, 0.70, ...).  They are represented as natural numbers in
    hundredths (95, 90, 85, 70), which preserves every comparison the code makes.
  * `json.dumps(data, sort_keys=True)` is represented by an injective serialization
    into the inductive type `Json` (objects carry their key/value entries in the
    sorted key order that sort_keys produces).
  * SHA-256 (`hashlib.sha256(...).hexdigest()`) is an external primitive; it is a
    parameter `sha : Json → δ` of every definition that hashes.  Claims that rely
    on collision-freeness carry an injectivity hypothesis on `sha` (the ideal-hash
    model).
  * spaCy tokens are `Token`s: `entType` is the string `token.ent_type_`, which is
    the empty string when spaCy attached no entity label.
-/

/-- Canonical serialized form of the JSON values the pipeline hashes.
Objects are `obj` wrapping a `cons`-spine of `entry key value` cells (in the
sorted key order produced by `json.dumps(..., sort_keys=True)`); arrays are
`arr` wrapping a `cons`-spine of values. -/
inductive Json where
  | str : String → Json
  | num : Nat → Json
  | nil : Json
  | cons : Json → Json → Json
  | entry : String → Json → Json
  | arr : Json → Json
  | obj : Json → Json
deriving DecidableEq

/-- Whether an object spine contains an entry with key `k`. -/
def hasKeySpine (k : String) : Json → Bool
  | .cons (.entry k0 _) rest => (k0 == k) || hasKeySpine k rest
  | .cons _ rest => hasKeySpine k rest
  | _ => false

/-- Look up the value stored under key `k` in an object spine. -/
def getKeySpine (k : String) : Json → Option Json
  | .cons (.entry k0 v0) rest => if k0 == k then some v0 else getKeySpine k rest
  | .cons _ rest => getKeySpine k rest
  | _ => none

/-- Python dict assignment `d[k] = v` on an object spine: replace the value if
the key is present, otherwise append a fresh entry at the end. -/
def setKeySpine (k : String) (v : Json) : Json → Json
  | .cons (.entry k0 v0) rest =>
      if k0 == k then .cons (.entry k0 v) rest
      else .cons (.entry k0 v0) (setKeySpine k v rest)
  | .cons j rest => .cons j (setKeySpine k v rest)
  | j => .cons (.entry k v) j

/-- Number of cells in an object spine. -/
def spineLen : Json → Nat
  | .cons _ rest => spineLen rest + 1
  | _ => 0

/-- Look up key `k` of a serialized object. -/
def getKey (k : String) : Json → Option Json
  | .obj sp => getKeySpine k sp
  | _ => none

/-- Dict assignment `d[k] = v` on a serialized object. -/
def setKey (k : String) (v : Json) : Json → Json
  | .obj sp => .obj (setKeySpine k v sp)
  | j => j

/-- A validated entity `{"text": ..., "label": ..., "confidence": ...}`;
confidence is in hundredths (0.95 is 95). -/
structure Entity where
  text : String
  label : String
  confidence : Nat
deriving DecidableEq

/-- A spaCy token as consumed by the validators: its surface text and
`ent_type_` (the empty string when spaCy assigned no entity label). -/
structure Token where
  text : String
  entType : String
deriving DecidableEq

/-- Custom medical term list of the sources. -/
def CUSTOM_DRUGS : List String := ["ibuprofen", "paracetamol", "aspirin", "naproxen", "penicillin"]

/-- Custom medical term list of the sources. -/
def CUSTOM_SYMPTOMS : List String := ["headache", "fever", "cough", "fatigue", "nausea"]

/-- System threshold 0.7, in hundredths. -/
def CONFIDENCE_THRESHOLD : Nat := 70

/-- Simulated smart contract address of simulate_smart_contract.py. -/
def CONTRACT_ADDRESS : String := "0x1234567890abcdef1234567890abcdef12345678"

/-- Does `needle` occur at the head of `hay`? -/
def leadsWith : List Char → List Char → Bool
  | [], _ => true
  | _ :: _, [] => false
  | a :: as, b :: bs => a == b && leadsWith as bs

/-- Python substring test `needle in hay` over character lists. -/
def occursIn (needle : List Char) (hay : List Char) : Bool :=
  match hay with
  | [] => needle.isEmpty
  | _ :: bs => leadsWith needle hay || occursIn needle bs

/-- Python `str.lower()`. -/
def lowerStr (s : String) : String := ⟨s.data.map Char.toLower⟩

/-- Python substring test `needle in hay` on strings. -/
def strContains (needle hay : String) : Bool := occursIn needle.data hay.data

/-- Per-token classification of `validate_entities` / `validate_nlp_entities`:
(a) a drug-vocabulary substring match over the lowercased token text gives DRUG
with confidence 0.95; (b) else a symptom-vocabulary match gives SYMPTOM with
0.90; (c) else a spaCy entity label is kept at 0.85 when that clears the
confidence threshold; otherwise the token contributes nothing. -/
def classifyToken (custom_drugs custom_symptoms : List String) (confidence_threshold : Nat) (t : Token) : List Entity :=
  let lower_text := lowerStr t.text
  if custom_drugs.any (fun drug => strContains drug lower_text) then
    [{ text := t.text, label := "DRUG", confidence := 95 }]
  else if custom_symptoms.any (fun symptom => strContains symptom lower_text) then
    [{ text := t.text, label := "SYMPTOM", confidence := 90 }]
  else if t.entType ≠ "" then
    (if 85 ≥ confidence_threshold then
      [{ text := t.text, label := t.entType, confidence := 85 }]
    else [])
  else []

/-- `validate_nlp_entities(doc, confidence_threshold)` of code/simulate_oracle.py
(and the body of `OracleNode.validate_entities`): the concatenation of the
per-token classifications, in token order. -/
def validate_nlp_entities (custom_drugs custom_symptoms : List String) (confidence_threshold : Nat) (doc : List Token) : List Entity :=
  doc.flatMap (classifyToken custom_drugs custom_symptoms confidence_threshold)

/-- `OracleNode.validate_entities(doc, custom_drugs, custom_symptoms)` of
simulate_decentralized_oracle_network.py; it uses the global
CONFIDENCE_THRESHOLD. -/
def OracleNode.validate_entities (doc : List Token) (custom_drugs custom_symptoms : List String) : List Entity :=
  validate_nlp_entities custom_drugs custom_symptoms CONFIDENCE_THRESHOLD doc

/-- Serialization of one validated entity, keys in sorted order. -/
def jsonOfEntity (e : Entity) : Json :=
  .obj (.cons (.entry "confidence" (.num e.confidence))
    (.cons (.entry "label" (.str e.label))
      (.cons (.entry "text" (.str e.text)) .nil)))

/-- Serialization of an entity list as a JSON array spine. -/
def jsonOfEntities : List Entity → Json
  | [] => .nil
  | e :: es => .cons (jsonOfEntity e) (jsonOfEntities es)

/-- The enriched package built by `OracleNode.enrich_with_metadata`:
`{"entities", "timestamp", "source", "node_id", "status"}`. -/
structure EnrichedData where
  entities : List Entity
  timestamp : String
  source : String
  node_id : String
  status : String
deriving DecidableEq

/-- Sorted-key object spine of an enriched package. -/
def enrichedSpine (d : EnrichedData) : Json :=
  .cons (.entry "entities" (.arr (jsonOfEntities d.entities)))
    (.cons (.entry "node_id" (.str d.node_id))
      (.cons (.entry "source" (.str d.source))
        (.cons (.entry "status" (.str d.status))
          (.cons (.entry "timestamp" (.str d.timestamp)) .nil))))

/-- `json.dumps(data, sort_keys=True)` for an enriched package. -/
def serializeEnriched (d : EnrichedData) : Json := .obj (enrichedSpine d)

/-- `OracleNode.generate_hash(data)`: SHA-256 over the canonical serialization;
the hash primitive is the parameter `sha`. -/
def OracleNode.generate_hash {δ : Type} (sha : Json → δ) (data : EnrichedData) : δ :=
  sha (serializeEnriched data)

/-- One oracle node's output dict `{"node_id", "data", "hash", "signature"}` as
collected by `main` (hash and signature are hex digest strings). -/
structure Attestation where
  node_id : String
  data : EnrichedData
  hash : String
  signature : String
deriving DecidableEq

/-- The dict returned by `consensus_mechanism` on success. -/
structure ConsensusResult where
  final_package : EnrichedData
  aggregated_hashes : List String
  signatures : List String
deriving DecidableEq

/-- `consensus_mechanism(oracle_outputs, threshold)`: `none` models the Python
`None` (consensus failed).  `valid_responses` keeps exactly the non-`None`
outputs; on success the result takes the first valid response's data and all
valid responses' hashes and signatures.  The empty-list match arm is reachable
only at `threshold = 0`, where Python would raise IndexError at
`valid_responses[0]`; every theorem below stays away from that corner by
assuming a positive threshold or a failed round. -/
def consensus_mechanism (oracle_outputs : List (Option Attestation)) (threshold : Nat) : Option ConsensusResult :=
  if oracle_outputs.length < threshold then none
  else if threshold ≤ (oracle_outputs.filterMap id).length then
    match oracle_outputs.filterMap id with
    | [] => none
    | v :: _ =>
        some { final_package := v.data,
               aggregated_hashes := (oracle_outputs.filterMap id).map (fun o => o.hash),
               signatures := (oracle_outputs.filterMap id).map (fun o => o.signature) }
  else none

/-- Follows the spec's words: the valid attestations of a round are those that
are non-null and carry a non-empty entity list.  Stated for comparison with
`consensus_mechanism`, whose own filter keeps every non-null output. -/
def specValidAttestations (oracle_outputs : List (Option Attestation)) : List Attestation :=
  (oracle_outputs.filterMap id).filter (fun o => !o.data.entities.isEmpty)

/-- The corrected record produced by `trigger_human_in_the_loop`. -/
structure CorrectedRecord where
  entities : List Entity
  correction_reason : String
  validator_id : String
  timestamp : String
deriving DecidableEq

/-- `trigger_human_in_the_loop(input_text, oracle_outputs)`: prints the
discrepancies and returns the fixed human correction; `now` stands for
`datetime.now()`. -/
def trigger_human_in_the_loop (now : String) (input_text : String) (oracle_outputs : List (Option Attestation)) : CorrectedRecord :=
  { entities :=
      [ { text := "MRI", label := "PROCEDURE", confidence := 98 },
        { text := "headache", label := "SYMPTOM", confidence := 95 },
        { text := "fatigue", label := "SYMPTOM", confidence := 93 },
        { text := "ibuprofen", label := "DRUG", confidence := 97 } ],
    correction_reason := "Low confidence in NLP extraction for 'MRI'",
    validator_id := "HITL_001",
    timestamp := now }

/-- The canonical record `final_data` of `main`: the consensus package or the
human correction, tagged with its provenance. -/
inductive CanonicalRecord where
  | fromConsensus : EnrichedData → CanonicalRecord
  | fromHuman : CorrectedRecord → CanonicalRecord
deriving DecidableEq

/-- Sorted-key object spine of a corrected record. -/
def correctedSpine (r : CorrectedRecord) : Json :=
  .cons (.entry "correction_reason" (.str r.correction_reason))
    (.cons (.entry "entities" (.arr (jsonOfEntities r.entities)))
      (.cons (.entry "timestamp" (.str r.timestamp))
        (.cons (.entry "validator_id" (.str r.validator_id)) .nil)))

/-- `json.dumps(record, sort_keys=True)` for a corrected record. -/
def serializeCorrected (r : CorrectedRecord) : Json := .obj (correctedSpine r)

/-- Canonical serialization of `final_data`. -/
def serializeCanonical : CanonicalRecord → Json
  | .fromConsensus p => serializeEnriched p
  | .fromHuman r => serializeCorrected r

/-- The consensus-or-arbitration step of `main` (lines 202-211): one consensus
round at threshold 2; on failure the round's record comes from
`trigger_human_in_the_loop`, and consensus is not re-run. -/
def mainSelect (now text : String) (oracle_results : List (Option Attestation)) : CanonicalRecord :=
  match consensus_mechanism oracle_results 2 with
  | some c => CanonicalRecord.fromConsensus c.final_package
  | none => CanonicalRecord.fromHuman (trigger_human_in_the_loop now text oracle_results)

/-- The final-hash step of `main` (lines 213-219): hash the canonical record,
then embed that digest in the persisted record under the key "final_hash"
(`embed` renders a digest as the JSON value the dict stores). -/
def mainFinalize {δ : Type} (sha : Json → δ) (embed : δ → Json) (now text : String) (oracle_results : List (Option Attestation)) : δ × Json :=
  let final_data := serializeCanonical (mainSelect now text oracle_results)
  let final_hash := sha final_data
  (final_hash, setKey "final_hash" (embed final_hash) final_data)

/-- The off-chain data consumed by simulate_smart_contract.py:
`{"valid_entities", "timestamp", "institution", "patient_id", "status"}`. -/
structure OffChainData where
  valid_entities : List Entity
  timestamp : String
  institution : String
  patient_id : String
  status : String
deriving DecidableEq

/-- Sorted-key object spine of the off-chain record. -/
def offChainSpine (d : OffChainData) : Json :=
  .cons (.entry "institution" (.str d.institution))
    (.cons (.entry "patient_id" (.str d.patient_id))
      (.cons (.entry "status" (.str d.status))
        (.cons (.entry "timestamp" (.str d.timestamp))
          (.cons (.entry "valid_entities" (.arr (jsonOfEntities d.valid_entities))) .nil))))

/-- `json.dumps(data_off_chain, sort_keys=True)` for the off-chain record. -/
def serializeOffChain (d : OffChainData) : Json := .obj (offChainSpine d)

/-- `verify_hash(data_off_chain, stored_hash)`: recompute the digest of the
off-chain data and compare it with the stored one. -/
def verify_hash {δ : Type} [DecidableEq δ] (sha : Json → δ) (data_off_chain : OffChainData) (stored_hash : δ) : Bool :=
  decide (sha (serializeOffChain data_off_chain) = stored_hash)

/-- Lowercased texts of the record's DRUG entities (line 51 of the contract). -/
def contractDrugs (d : OffChainData) : List String :=
  (d.valid_entities.filter (fun ent => ent.label == "DRUG")).map (fun ent => lowerStr ent.text)

/-- Lowercased texts of the record's SYMPTOM entities (line 52 of the contract). -/
def contractSymptoms (d : OffChainData) : List String :=
  (d.valid_entities.filter (fun ent => ent.label == "SYMPTOM")).map (fun ent => lowerStr ent.text)

/-- Keyword list of the contract's headache condition. -/
def headache_keywords : List String := ["headache", "headaches", "pain", "migraine"]

/-- Keyword list of the contract's approved drugs. -/
def drug_keywords : List String := ["ibuprofen", "paracetamol", "aspirin"]

/-- Outcome of one smart-contract execution.  The Python function returns a
single bool (here `actionTriggered`); `verified` and `ruleEvaluated` record
which steps ran, and `matchedPair` the `(matched_headache, matched_drug)` pair
the contract reports on a match. -/
structure ContractResult where
  verified : Bool
  ruleEvaluated : Bool
  actionTriggered : Bool
  matchedPair : Option (String × String)
deriving DecidableEq

/-- `execute_smart_contract(data_off_chain, stored_hash)`: step 1 verifies the
digest and halts on mismatch; step 2 evaluates the headache/drug condition by
exact membership of keywords in the record's lowercased entity texts. -/
def execute_smart_contract {δ : Type} [DecidableEq δ] (sha : Json → δ) (data_off_chain : OffChainData) (stored_hash : δ) : ContractResult :=
  if !(verify_hash sha data_off_chain stored_hash) then
    { verified := false, ruleEvaluated := false, actionTriggered := false, matchedPair := none }
  else
    let drugs := contractDrugs data_off_chain
    let symptoms := contractSymptoms data_off_chain
    let has_headache := headache_keywords.any (fun symptom => symptoms.contains symptom)
    let has_drug := drug_keywords.any (fun drug => drugs.contains drug)
    if has_headache && has_drug then
      { verified := true, ruleEvaluated := true, actionTriggered := true,
        matchedPair :=
          (headache_keywords.find? (fun k => symptoms.contains k)).bind (fun mh =>
            (drug_keywords.find? (fun dr => drugs.contains dr)).map (fun md => (mh, md))) }
    else
      { verified := true, ruleEvaluated := true, actionTriggered := false, matchedPair := none }

/-- The module-level dict `on_chain_data` of simulate_smart_contract.py; every
field is `none` before the first store. -/
structure OnChainData (δ : Type) where
  hash : Option δ
  timestamp : Option String
  status : Option String
  contract_address : Option String
deriving DecidableEq

/-- `store_on_chain(data_off_chain)`: hash the off-chain record and write
digest, timestamp, status and contract address into the on-chain dict,
returning the digest; `now` stands for `datetime.now()`. -/
def store_on_chain {δ : Type} (sha : Json → δ) (now : String) (data_off_chain : OffChainData) (st : OnChainData δ) : δ × OnChainData δ :=
  let stored_hash := sha (serializeOffChain data_off_chain)
  (stored_hash,
   { hash := some stored_hash,
     timestamp := some now,
     status := some "Data hash stored on-chain",
     contract_address := some CONTRACT_ADDRESS })

/-- The example off-chain record defined at the bottom of
simulate_smart_contract.py. -/
def off_chain_data : OffChainData :=
  { valid_entities :=
      [ { text := "headaches", label := "SYMPTOM", confidence := 90 },
        { text := "fatigue", label := "SYMPTOM", confidence := 90 },
        { text := "ibuprofen", label := "DRUG", confidence := 95 } ],
    timestamp := "2025-07-14T12:34:56Z",
    institution := "CHU Alger",
    patient_id := "PAT_123456",
    status := "Oracle validation passed" }

/-! ## Helper lemmas about the canonical serialization -/

/-- Entity serialization is injective. -/
theorem jsonOfEntity_injective : Function.Injective jsonOfEntity := by
  intro e1 e2 h
  cases e1
  cases e2
  simp [jsonOfEntity] at h
  simp [h.1, h.2.1, h.2.2]

/-- Entity-list serialization is injective. -/
theorem jsonOfEntities_injective : Function.Injective jsonOfEntities := by
  intro l1
  induction l1 with
  | nil =>
      intro l2 h
      cases l2 with
      | nil => rfl
      | cons b bs => simp [jsonOfEntities] at h
  | cons a as ih =>
      intro l2 h
      cases l2 with
      | nil => simp [jsonOfEntities] at h
      | cons b bs =>
          simp [jsonOfEntities] at h
          rw [jsonOfEntity_injective h.1, ih h.2]

/-- Off-chain serialization is injective. -/
theorem serializeOffChain_injective : Function.Injective serializeOffChain := by
  intro d1 d2 h
  cases d1
  cases d2
  simp [serializeOffChain, offChainSpine] at h
  obtain ⟨h1, h2, h3, h4, h5⟩ := h
  simp [h1, h2, h3, h4, jsonOfEntities_injective h5]

/-- Replacing a list element by a different one changes the list. -/
theorem set_ne_of_getElem_ne {α : Type} (l : List α) (i : Nat) (hi : i < l.length) (a : α) (ha : a ≠ l[i]) : l.set i a ≠ l := by
  intro hEq
  apply ha
  have h2 := congrArg (fun t => t[i]?) hEq
  simp only [List.getElem?_set_eq_of_lt a hi, List.getElem?_eq_getElem hi] at h2
  simpa using h2

/-! ## C2: the integrity gate halts evaluation on a digest mismatch -/

/-- C2.  For every canonical record and stored commitment, if the recomputed
digest of the record differs from the committed digest, `execute_smart_contract`
halts with `actionTriggered = false` and the rule-evaluation (business-logic)
step is never executed over that record (`ruleEvaluated = false`, and no matched
pair is reported). -/
theorem contract_halts_on_digest_mismatch {δ : Type} [DecidableEq δ] (sha : Json → δ)
    (data_off_chain : OffChainData) (stored_hash : δ)
    (hne : sha (serializeOffChain data_off_chain) ≠ stored_hash) :
    execute_smart_contract sha data_off_chain stored_hash =
      { verified := false, ruleEvaluated := false, actionTriggered := false, matchedPair := none } := by
  have hv : verify_hash sha data_off_chain stored_hash = false := by
    simp [verify_hash, hne]
  simp [execute_smart_contract, hv]

/-- Witness for C2 at a concrete record and a mismatching stored digest. -/
theorem contract_halts_on_digest_mismatch_witness :
    execute_smart_contract (id : Json → Json) off_chain_data (Json.str "bogus") =
      { verified := false, ruleEvaluated := false, actionTriggered := false, matchedPair := none } :=
  contract_halts_on_digest_mismatch id off_chain_data (Json.str "bogus") (by decide)

/-! ## C3: a second commit silently overwrites the stored commitment -/

/-- A second off-chain record that differs from `off_chain_data`. -/
def other_off_chain_data : OffChainData :=
  { valid_entities := [ { text := "fever", label := "SYMPTOM", confidence := 90 } ],
    timestamp := "2025-07-15T08:00:00Z",
    institution := "CHU Alger",
    patient_id := "PAT_654321",
    status := "Oracle validation passed" }

/-- Counterexample to C3.  Starting from the empty on-chain dict, committing
`off_chain_data` and then committing `other_off_chain_data` (whose digest
differs) raises no error: the call returns normally and the stored commitment
is silently replaced by the new digest. -/
theorem store_on_chain_overwrite_counterexample :
    (store_on_chain (id : Json → Json) "t1" off_chain_data
        ⟨none, none, none, none⟩).2.hash = some (serializeOffChain off_chain_data) ∧
    serializeOffChain other_off_chain_data ≠ serializeOffChain off_chain_data ∧
    (store_on_chain (id : Json → Json) "t2" other_off_chain_data
        (store_on_chain (id : Json → Json) "t1" off_chain_data ⟨none, none, none, none⟩).2).2.hash =
      some (serializeOffChain other_off_chain_data) ∧
    (store_on_chain (id : Json → Json) "t2" other_off_chain_data
        (store_on_chain (id : Json → Json) "t1" off_chain_data ⟨none, none, none, none⟩).2).2.hash ≠
      some (serializeOffChain off_chain_data) := by
  refine ⟨rfl, by decide, rfl, by decide⟩

/-- C3 amended.  `store_on_chain` never raises on a repeated commit: it always
returns normally, and the resulting on-chain dict is the same as if the
previous commitment had never been stored — i.e. a stored commitment is
silently overwritten, every field being determined by the latest record alone. -/
theorem store_on_chain_overwrites {δ : Type} (sha : Json → δ) (now1 now2 : String)
    (d1 d2 : OffChainData) (st : OnChainData δ) :
    (store_on_chain sha now2 d2 (store_on_chain sha now1 d1 st).2).2 =
      (store_on_chain sha now2 d2 st).2 ∧
    (store_on_chain sha now2 d2 (store_on_chain sha now1 d1 st).2).2.hash =
      some (sha (serializeOffChain d2)) := by
  exact ⟨rfl, rfl⟩

/-! ## C5: commit-then-verify round trip, and rejection of mutated records -/

/-- C5.  Committing a record and immediately verifying that same record against
the returned digest yields `true`; verifying any record obtained from the
committed one by replacing one entity (so, in particular, by mutating one
entity field) yields `false`.  `sha` is injective: the ideal-hash model of
SHA-256. -/
theorem commit_verify_roundtrip {δ : Type} [DecidableEq δ] (sha : Json → δ)
    (hinj : Function.Injective sha) (now : String) (st : OnChainData δ)
    (d : OffChainData) (i : Nat) (hi : i < d.valid_entities.length) (e2 : Entity)
    (hne : e2 ≠ d.valid_entities[i]) :
    verify_hash sha d (store_on_chain sha now d st).1 = true ∧
    verify_hash sha { d with valid_entities := d.valid_entities.set i e2 }
      (store_on_chain sha now d st).1 = false := by
  constructor
  · simp [verify_hash, store_on_chain]
  · have hlist : d.valid_entities.set i e2 ≠ d.valid_entities :=
      set_ne_of_getElem_ne d.valid_entities i hi e2 hne
    have hser : serializeOffChain { d with valid_entities := d.valid_entities.set i e2 } ≠
        serializeOffChain d := by
      intro h
      exact hlist (congrArg OffChainData.valid_entities (serializeOffChain_injective h))
    simp [verify_hash, store_on_chain]
    exact fun h => absurd (hinj h) hser

/-- Witness for C5: the example record of simulate_smart_contract.py, with its
first entity replaced by a different one. -/
theorem commit_verify_roundtrip_witness :
    verify_hash (id : Json → Json) off_chain_data
      (store_on_chain (id : Json → Json) "t1" off_chain_data ⟨none, none, none, none⟩).1 = true ∧
    verify_hash (id : Json → Json)
      { off_chain_data with
        valid_entities := off_chain_data.valid_entities.set 0
          { text := "fever", label := "SYMPTOM", confidence := 90 } }
      (store_on_chain (id : Json → Json) "t1" off_chain_data ⟨none, none, none, none⟩).1 = false :=
  commit_verify_roundtrip id (fun _ _ h => h) "t1" ⟨none, none, none, none⟩
    off_chain_data 0 (by decide) { text := "fever", label := "SYMPTOM", confidence := 90 } (by decide)

/-! ## C6: the digest is a deterministic function of the package fields -/

/-- C6.  `OracleNode.generate_hash` is deterministic: it is a pure function of
the entity list and the metadata fields, so two invocations on packages with
identical field data produce the identical digest. -/
theorem generate_hash_deterministic {δ : Type} (sha : Json → δ) (d1 d2 : EnrichedData)
    (hent : d1.entities = d2.entities) (hts : d1.timestamp = d2.timestamp)
    (hsrc : d1.source = d2.source) (hnode : d1.node_id = d2.node_id)
    (hstat : d1.status = d2.status) :
    OracleNode.generate_hash sha d1 = OracleNode.generate_hash sha d2 := by
  cases d1
  cases d2
  simp only at hent hts hsrc hnode hstat
  rw [hent, hts, hsrc, hnode, hstat]

/-- Witness for C6 at two field-identical concrete packages. -/
theorem generate_hash_deterministic_witness :
    OracleNode.generate_hash (id : Json → Json)
      { entities := [{ text := "headache", label := "SYMPTOM", confidence := 90 }],
        timestamp := "t0", source := "NLP Module", node_id := "Oracle_A", status := "validated" } =
    OracleNode.generate_hash (id : Json → Json)
      { entities := [{ text := "headache", label := "SYMPTOM", confidence := 90 }],
        timestamp := "t0", source := "NLP Module", node_id := "Oracle_A", status := "validated" } :=
  generate_hash_deterministic id _ _ rfl rfl rfl rfl rfl

/-! ## C10: the embedded final hash is computed before its own insertion -/

/-- Neither record shape of the pipeline carries a "final_hash" key before the
finalization step. -/
theorem serializeCanonical_no_final_hash (c : CanonicalRecord) :
    ∃ sp, serializeCanonical c = Json.obj sp ∧ hasKeySpine "final_hash" sp = false := by
  cases c with
  | fromConsensus p => exact ⟨enrichedSpine p, rfl, rfl⟩
  | fromHuman r => exact ⟨correctedSpine r, rfl, rfl⟩

/-- Assigning an absent key appends exactly one entry to an object spine. -/
theorem spineLen_setKeySpine (k : String) (v : Json) (sp : Json)
    (h : hasKeySpine k sp = false) : spineLen (setKeySpine k v sp) = spineLen sp + 1 := by
  induction sp with
  | str s => rfl
  | num n => rfl
  | nil => rfl
  | arr a ih => rfl
  | obj a ih => rfl
  | entry k0 v0 ih => rfl
  | cons a rest iha ihrest =>
      cases a with
      | entry k0 v0 =>
          simp only [hasKeySpine, Bool.or_eq_false_iff] at h
          simp only [setKeySpine, h.1, if_false, Bool.false_eq_true, spineLen, ihrest h.2]
      | str s => simp only [hasKeySpine] at h; simp [setKeySpine, spineLen, ihrest h]
      | num n => simp only [hasKeySpine] at h; simp [setKeySpine, spineLen, ihrest h]
      | nil => simp only [hasKeySpine] at h; simp [setKeySpine, spineLen, ihrest h]
      | cons x y => simp only [hasKeySpine] at h; simp [setKeySpine, spineLen, ihrest h]
      | arr x => simp only [hasKeySpine] at h; simp [setKeySpine, spineLen, ihrest h]
      | obj x => simp only [hasKeySpine] at h; simp [setKeySpine, spineLen, ihrest h]

/-- After assigning an absent key, looking that key up returns the assigned
value. -/
theorem getKeySpine_setKeySpine (k : String) (v : Json) (sp : Json)
    (h : hasKeySpine k sp = false) : getKeySpine k (setKeySpine k v sp) = some v := by
  induction sp with
  | str s => simp [setKeySpine, getKeySpine]
  | num n => simp [setKeySpine, getKeySpine]
  | nil => simp [setKeySpine, getKeySpine]
  | arr a ih => simp [setKeySpine, getKeySpine]
  | obj a ih => simp [setKeySpine, getKeySpine]
  | entry k0 v0 ih => simp [setKeySpine, getKeySpine]
  | cons a rest iha ihrest =>
      cases a with
      | entry k0 v0 =>
          simp only [hasKeySpine, Bool.or_eq_false_iff] at h
          simp only [setKeySpine, h.1, if_false, Bool.false_eq_true, getKeySpine, ihrest h.2]
      | str s => simp only [hasKeySpine] at h; simp [setKeySpine, getKeySpine, ihrest h]
      | num n => simp only [hasKeySpine] at h; simp [setKeySpine, getKeySpine, ihrest h]
      | nil => simp only [hasKeySpine] at h; simp [setKeySpine, getKeySpine, ihrest h]
      | cons x y => simp only [hasKeySpine] at h; simp [setKeySpine, getKeySpine, ihrest h]
      | arr x => simp only [hasKeySpine] at h; simp [setKeySpine, getKeySpine, ihrest h]
      | obj x => simp only [hasKeySpine] at h; simp [setKeySpine, getKeySpine, ihrest h]

/-- C10.  The digest `main` embeds under "final_hash" is computed over the
record as it was before that field was inserted: the returned `final_hash`
equals the digest of the bare canonical record, the persisted record stores it
under "final_hash", and — `sha` being injective (ideal-hash model) —
recomputing the digest over the full persisted record, embedded digest
included, does not reproduce the embedded value. -/
theorem final_hash_excludes_digest_field {δ : Type} (sha : Json → δ) (embed : δ → Json)
    (now text : String) (oracle_results : List (Option Attestation))
    (hinj : Function.Injective sha) :
    (mainFinalize sha embed now text oracle_results).1 =
      sha (serializeCanonical (mainSelect now text oracle_results)) ∧
    getKey "final_hash" (mainFinalize sha embed now text oracle_results).2 =
      some (embed (sha (serializeCanonical (mainSelect now text oracle_results)))) ∧
    sha (mainFinalize sha embed now text oracle_results).2 ≠
      sha (serializeCanonical (mainSelect now text oracle_results)) := by
  obtain ⟨sp, hsp, hfree⟩ := serializeCanonical_no_final_hash (mainSelect now text oracle_results)
  refine ⟨rfl, ?_, ?_⟩
  · simp only [mainFinalize, hsp, setKey, getKey]
    exact getKeySpine_setKeySpine _ _ _ hfree
  · simp only [mainFinalize, hsp, setKey]
    intro hEq
    have hstruct := hinj hEq
    have hlen := congrArg spineLen (Json.obj.inj hstruct)
    rw [spineLen_setKeySpine _ _ _ hfree] at hlen
    omega

/-- Witness for C10: identity digest over an empty oracle round (the record
then comes from human arbitration). -/
theorem final_hash_excludes_digest_field_witness :
    (mainFinalize (id : Json → Json) id "t0" "report" []).1 =
      id (serializeCanonical (mainSelect "t0" "report" [])) ∧
    getKey "final_hash" (mainFinalize (id : Json → Json) id "t0" "report" []).2 =
      some (id (id (serializeCanonical (mainSelect "t0" "report" [])))) ∧
    id (mainFinalize (id : Json → Json) id "t0" "report" []).2 ≠
      id (serializeCanonical (mainSelect "t0" "report" [])) :=
  final_hash_excludes_digest_field id id "t0" "report" [] (fun _ _ h => h)

/-! ## C1 and C4: consensus outcomes -/

/-- A non-null oracle output whose package has an empty entity list (per the
spec such an attestation is an abstain vote, not a valid one). -/
def attEmptyA : Attestation :=
  { node_id := "Oracle_A",
    data := { entities := [], timestamp := "t0", source := "NLP Module",
              node_id := "Oracle_A", status := "validated" },
    hash := "hA", signature := "sA" }

/-- A valid attestation: non-null with a non-empty entity list. -/
def attFullB : Attestation :=
  { node_id := "Oracle_B",
    data := { entities := [{ text := "headache", label := "SYMPTOM", confidence := 90 }],
              timestamp := "t1", source := "NLP Module",
              node_id := "Oracle_B", status := "validated" },
    hash := "hB", signature := "sB" }

/-- A second valid attestation. -/
def attFullC : Attestation :=
  { node_id := "Oracle_C",
    data := { entities := [{ text := "ibuprofen", label := "DRUG", confidence := 95 }],
              timestamp := "t2", source := "NLP Module",
              node_id := "Oracle_C", status := "validated" },
    hash := "hC", signature := "sC" }

/-- Counterexample to C1.  With attestations [empty-entity, valid, valid] and
threshold 2 there are exactly 2 valid attestations (in the claim's sense:
non-null with non-empty entities), so the claim demands the canonical package
of the first valid one (`attFullB`) and the digests of the valid ones only; the
code instead canonicalizes the empty-entity attestation's package and collects
all three digests and signatures. -/
theorem consensus_first_valid_counterexample :
    specValidAttestations [some attEmptyA, some attFullB, some attFullC] = [attFullB, attFullC] ∧
    consensus_mechanism [some attEmptyA, some attFullB, some attFullC] 2 =
      some { final_package := attEmptyA.data,
             aggregated_hashes := ["hA", "hB", "hC"],
             signatures := ["sA", "sB", "sC"] } ∧
    attEmptyA.data ≠ attFullB.data ∧
    ["hA", "hB", "hC"] ≠ [attFullB.hash, attFullC.hash] := by
  decide

/-- C1 amended.  For every sequence of attestations in which the number of
non-null attestations is at least `threshold` (threshold positive; the entity
lists play no role in the code's filter), `consensus_mechanism` returns a
success whose canonical package is the package of the first non-null
attestation in node-submission order, and whose aggregated digests and
signatures are exactly those of all non-null attestations, in order. -/
theorem consensus_approves_first_nonnull (oracle_outputs : List (Option Attestation))
    (threshold : Nat) (hpos : 0 < threshold)
    (hlen : threshold ≤ (oracle_outputs.filterMap id).length) :
    ∃ v rest, oracle_outputs.filterMap id = v :: rest ∧
      consensus_mechanism oracle_outputs threshold =
        some { final_package := v.data,
               aggregated_hashes := (v :: rest).map (fun o => o.hash),
               signatures := (v :: rest).map (fun o => o.signature) } := by
  obtain ⟨v, rest, hv⟩ : ∃ v rest, oracle_outputs.filterMap id = v :: rest := by
    cases hcase : oracle_outputs.filterMap id with
    | nil => rw [hcase] at hlen; simp at hlen; omega
    | cons a l => exact ⟨a, l, rfl⟩
  have hnlt : ¬ oracle_outputs.length < threshold := by
    have hle := List.length_filterMap_le id oracle_outputs
    omega
  refine ⟨v, rest, hv, ?_⟩
  unfold consensus_mechanism
  rw [if_neg hnlt, if_pos hlen]
  simp only [hv]

/-- Witness for C1 (amended): a single valid attestation at threshold 1. -/
theorem consensus_approves_first_nonnull_witness :
    ∃ v rest, ([some attFullB] : List (Option Attestation)).filterMap id = v :: rest ∧
      consensus_mechanism [some attFullB] 1 =
        some { final_package := v.data,
               aggregated_hashes := (v :: rest).map (fun o => o.hash),
               signatures := (v :: rest).map (fun o => o.signature) } :=
  consensus_approves_first_nonnull [some attFullB] 1 (by decide) (by decide)

/-- Counterexample to C4.  Both attestations of this round are non-null but
carry empty entity lists, so the number of valid attestations in the claim's
sense is 0 < 2; the claim demands a Failed outcome, but the code reaches
consensus (its filter never looks at the entity lists). -/
theorem consensus_failed_threshold_counterexample :
    specValidAttestations [some attEmptyA, some attEmptyA] = [] ∧
    (consensus_mechanism [some attEmptyA, some attEmptyA] 2).isSome = true := by
  decide

/-- C4 amended.  For every sequence of attestations in which the number of
non-null attestations is strictly below `threshold`, `consensus_mechanism`
returns `none` (Failed), and — at `main`'s threshold of 2 — the round's record
is exactly the one produced by `trigger_human_in_the_loop`: the failure always
routes to human arbitration, and `mainSelect` runs the single consensus round
of `main`, never retrying it with the same inputs. -/
theorem consensus_failure_routes_to_hitl (now text : String)
    (oracle_outputs : List (Option Attestation)) (threshold : Nat)
    (hlt : (oracle_outputs.filterMap id).length < threshold) :
    consensus_mechanism oracle_outputs threshold = none ∧
    (threshold = 2 →
      mainSelect now text oracle_outputs =
        CanonicalRecord.fromHuman (trigger_human_in_the_loop now text oracle_outputs)) := by
  have hnone : consensus_mechanism oracle_outputs threshold = none := by
    unfold consensus_mechanism
    by_cases h1 : oracle_outputs.length < threshold
    · rw [if_pos h1]
    · rw [if_neg h1, if_neg (by omega)]
  refine ⟨hnone, fun h2 => ?_⟩
  subst h2
  unfold mainSelect
  rw [hnone]

/-- Witness for C4 (amended): a round of three abstaining (null) attestations
at threshold 2. -/
theorem consensus_failure_routes_to_hitl_witness :
    consensus_mechanism ([none, none, none] : List (Option Attestation)) 2 = none ∧
    (2 = 2 →
      mainSelect "t0" "report" [none, none, none] =
        CanonicalRecord.fromHuman (trigger_human_in_the_loop "t0" "report" [none, none, none])) :=
  consensus_failure_routes_to_hitl "t0" "report" [none, none, none] 2 (by decide)

/-! ## C7 and C8: token classification and the confidence threshold -/

/-- C7.  Per-token classification follows the priority order of the source: a
drug-vocabulary substring match over the lowercased text wins and yields DRUG
at 0.95; otherwise a symptom-vocabulary match yields SYMPTOM at 0.90; otherwise
an extractor label is used at 0.85 and retained exactly when 0.85 clears the
configured threshold; a token matching none of these contributes no entity (and
classification is total, so no error is possible). -/
theorem classify_priority_order (custom_drugs custom_symptoms : List String)
    (confidence_threshold : Nat) (t : Token) :
    (custom_drugs.any (fun drug => strContains drug (lowerStr t.text)) = true →
      classifyToken custom_drugs custom_symptoms confidence_threshold t =
        [{ text := t.text, label := "DRUG", confidence := 95 }]) ∧
    (custom_drugs.any (fun drug => strContains drug (lowerStr t.text)) = false →
      custom_symptoms.any (fun symptom => strContains symptom (lowerStr t.text)) = true →
      classifyToken custom_drugs custom_symptoms confidence_threshold t =
        [{ text := t.text, label := "SYMPTOM", confidence := 90 }]) ∧
    (custom_drugs.any (fun drug => strContains drug (lowerStr t.text)) = false →
      custom_symptoms.any (fun symptom => strContains symptom (lowerStr t.text)) = false →
      t.entType ≠ "" →
      classifyToken custom_drugs custom_symptoms confidence_threshold t =
        (if 85 ≥ confidence_threshold then
          [{ text := t.text, label := t.entType, confidence := 85 }]
        else [])) ∧
    (custom_drugs.any (fun drug => strContains drug (lowerStr t.text)) = false →
      custom_symptoms.any (fun symptom => strContains symptom (lowerStr t.text)) = false →
      t.entType = "" →
      classifyToken custom_drugs custom_symptoms confidence_threshold t = []) := by
  refine ⟨fun hd => ?_, fun hd hs => ?_, fun hd hs he => ?_, fun hd hs he => ?_⟩
  · simp [classifyToken, hd]
  · simp [classifyToken, hd, hs]
  · simp [classifyToken, hd, hs, he]
  · simp [classifyToken, hd, hs, he]

/-- Witness for C7: the drug branch at the default configuration. -/
theorem classify_priority_order_witness :
    classifyToken CUSTOM_DRUGS CUSTOM_SYMPTOMS CONFIDENCE_THRESHOLD
        { text := "ibuprofen", entType := "" } =
      [{ text := "ibuprofen", label := "DRUG", confidence := 95 }] :=
  (classify_priority_order CUSTOM_DRUGS CUSTOM_SYMPTOMS CONFIDENCE_THRESHOLD
    { text := "ibuprofen", entType := "" }).1 (by decide)

/-- Counterexample to C8.  With the threshold configured at 0.99, a symptom
token still enters the package at confidence 0.90 < 0.99: the threshold guards
only the extractor-label branch, so not every included entity clears an
arbitrary configured threshold. -/
theorem confidence_threshold_counterexample :
    validate_nlp_entities CUSTOM_DRUGS CUSTOM_SYMPTOMS 99 [{ text := "headache", entType := "" }] =
      [{ text := "headache", label := "SYMPTOM", confidence := 90 }] ∧
    (90 : Nat) < 99 := by
  decide

/-- C8 amended.  Whenever the configured threshold is at most 0.90 (as the
default 0.7 is), every entity included by `validate_nlp_entities` has
confidence at least that threshold, entities below it being dropped entirely;
for larger thresholds the vocabulary branches (0.95/0.90) ignore the threshold. -/
theorem validated_confidence_bound (custom_drugs custom_symptoms : List String)
    (confidence_threshold : Nat) (doc : List Token) (e : Entity)
    (hthr : confidence_threshold ≤ 90)
    (he : e ∈ validate_nlp_entities custom_drugs custom_symptoms confidence_threshold doc) :
    confidence_threshold ≤ e.confidence := by
  unfold validate_nlp_entities at he
  rw [List.mem_flatMap] at he
  obtain ⟨t, _, hmem⟩ := he
  by_cases hd : (custom_drugs.any fun drug => strContains drug (lowerStr t.text)) = true
  · simp [classifyToken, hd] at hmem
    rw [hmem]
    show confidence_threshold ≤ 95
    omega
  · by_cases hs : (custom_symptoms.any fun symptom => strContains symptom (lowerStr t.text)) = true
    · simp [classifyToken, hd, hs] at hmem
      rw [hmem]
      show confidence_threshold ≤ 90
      omega
    · by_cases hent : t.entType = ""
      · simp [classifyToken, hd, hs, hent] at hmem
      · by_cases hkeep : 85 ≥ confidence_threshold
        · simp [classifyToken, hd, hs, hent, hkeep] at hmem
          rw [hmem]
          show confidence_threshold ≤ 85
          omega
        · simp [classifyToken, hd, hs, hent, hkeep] at hmem

/-- Witness for C8 (amended): the default threshold 0.7 and a drug token. -/
theorem validated_confidence_bound_witness :
    (70 : Nat) ≤ ({ text := "ibuprofen", label := "DRUG", confidence := 95 } : Entity).confidence :=
  validated_confidence_bound CUSTOM_DRUGS CUSTOM_SYMPTOMS 70
    [{ text := "ibuprofen", entType := "" }]
    { text := "ibuprofen", label := "DRUG", confidence := 95 }
    (by decide) (by decide)

/-! ## C9: exact-token, case-insensitive rule matching -/

/-- A keyword is contained in the contract's symptom list exactly when some
SYMPTOM entity's lowercased text equals it. -/
theorem contains_contractSymptoms (d : OffChainData) (k : String) :
    (contractSymptoms d).contains k = true ↔
      ∃ ent ∈ d.valid_entities, ent.label = "SYMPTOM" ∧ lowerStr ent.text = k := by
  simp [contractSymptoms, List.contains_iff_exists_mem_beq, List.mem_filter, and_assoc]

/-- A keyword is contained in the contract's drug list exactly when some DRUG
entity's lowercased text equals it. -/
theorem contains_contractDrugs (d : OffChainData) (k : String) :
    (contractDrugs d).contains k = true ↔
      ∃ ent ∈ d.valid_entities, ent.label = "DRUG" ∧ lowerStr ent.text = k := by
  simp [contractDrugs, List.contains_iff_exists_mem_beq, List.mem_filter, and_assoc]

/-- C9.  Once the integrity gate passes, the rule evaluation runs and matching
is case-insensitive and exact-token: the action triggers exactly when some
headache keyword equals the lowercased text of a SYMPTOM entity and some drug
keyword equals the lowercased text of a DRUG entity (list membership, not
substring); on a match the reported pair is the first matching keyword of each
list in iteration order, with `actionTriggered = true`. -/
theorem rule_match_exact_token {δ : Type} [DecidableEq δ] (sha : Json → δ)
    (d : OffChainData) (stored_hash : δ) (hver : verify_hash sha d stored_hash = true) :
    (execute_smart_contract sha d stored_hash).ruleEvaluated = true ∧
    ((execute_smart_contract sha d stored_hash).actionTriggered = true ↔
      ((∃ k ∈ headache_keywords, ∃ ent ∈ d.valid_entities,
          ent.label = "SYMPTOM" ∧ lowerStr ent.text = k) ∧
       (∃ k ∈ drug_keywords, ∃ ent ∈ d.valid_entities,
          ent.label = "DRUG" ∧ lowerStr ent.text = k))) ∧
    ((execute_smart_contract sha d stored_hash).actionTriggered = true →
      ∃ mh md,
        headache_keywords.find? (fun k => (contractSymptoms d).contains k) = some mh ∧
        drug_keywords.find? (fun k => (contractDrugs d).contains k) = some md ∧
        (execute_smart_contract sha d stored_hash).matchedPair = some (mh, md)) := by
  have hexec : execute_smart_contract sha d stored_hash =
      (if headache_keywords.any (fun k => (contractSymptoms d).contains k) &&
          drug_keywords.any (fun dr => (contractDrugs d).contains dr) then
        { verified := true, ruleEvaluated := true, actionTriggered := true,
          matchedPair :=
            (headache_keywords.find? (fun k => (contractSymptoms d).contains k)).bind (fun mh =>
              (drug_keywords.find? (fun dr => (contractDrugs d).contains dr)).map
                (fun md => (mh, md))) }
      else
        { verified := true, ruleEvaluated := true, actionTriggered := false,
          matchedPair := none }) := by
    unfold execute_smart_contract
    rw [hver]
    rfl
  by_cases hc : (headache_keywords.any (fun k => (contractSymptoms d).contains k) &&
      drug_keywords.any (fun dr => (contractDrugs d).contains dr)) = true
  · rw [hexec, if_pos hc]
    rw [Bool.and_eq_true] at hc
    obtain ⟨hh, hd2⟩ := hc
    refine ⟨rfl, ?_, ?_⟩
    · constructor
      · intro _
        obtain ⟨k, hk, hck⟩ := List.any_eq_true.mp hh
        obtain ⟨k2, hk2, hck2⟩ := List.any_eq_true.mp hd2
        exact ⟨⟨k, hk, (contains_contractSymptoms d k).mp hck⟩,
               ⟨k2, hk2, (contains_contractDrugs d k2).mp hck2⟩⟩
      · intro _
        rfl
    · intro _
      obtain ⟨mh, hmh⟩ := Option.isSome_iff_exists.mp
        (List.find?_isSome.mpr (List.any_eq_true.mp hh))
      obtain ⟨md, hmd⟩ := Option.isSome_iff_exists.mp
        (List.find?_isSome.mpr (List.any_eq_true.mp hd2))
      refine ⟨mh, md, hmh, hmd, ?_⟩
      simp only [hmh, hmd, Option.bind_some, Option.map_some]
      rfl
  · rw [hexec, if_neg hc]
    refine ⟨rfl, ?_, ?_⟩
    · constructor
      · intro h
        exact absurd h (by simp)
      · rintro ⟨⟨k, hk, ent, hent, hlab, hkeq⟩, ⟨k2, hk2, ent2, hent2, hlab2, hkeq2⟩⟩
        refine absurd ?_ hc
        rw [Bool.and_eq_true]
        exact ⟨List.any_eq_true.mpr ⟨k, hk, (contains_contractSymptoms d k).mpr ⟨ent, hent, hlab, hkeq⟩⟩,
               List.any_eq_true.mpr ⟨k2, hk2, (contains_contractDrugs d k2).mpr ⟨ent2, hent2, hlab2, hkeq2⟩⟩⟩
    · intro h
      exact absurd h (by simp)

/-- Witness for C9: the example record of simulate_smart_contract.py against
its own digest; the matched pair is (headaches, ibuprofen). -/
theorem rule_match_exact_token_witness :
    (execute_smart_contract (id : Json → Json) off_chain_data
        (serializeOffChain off_chain_data)).ruleEvaluated = true ∧
    ((execute_smart_contract (id : Json → Json) off_chain_data
        (serializeOffChain off_chain_data)).actionTriggered = true ↔
      ((∃ k ∈ headache_keywords, ∃ ent ∈ off_chain_data.valid_entities,
          ent.label = "SYMPTOM" ∧ lowerStr ent.text = k) ∧
       (∃ k ∈ drug_keywords, ∃ ent ∈ off_chain_data.valid_entities,
          ent.label = "DRUG" ∧ lowerStr ent.text = k))) ∧
    ((execute_smart_contract (id : Json → Json) off_chain_data
        (serializeOffChain off_chain_data)).actionTriggered = true →
      ∃ mh md,
        headache_keywords.find? (fun k => (contractSymptoms off_chain_data).contains k) = some mh ∧
        drug_keywords.find? (fun k => (contractDrugs off_chain_data).contains k) = some md ∧
        (execute_smart_contract (id : Json → Json) off_chain_data
          (serializeOffChain off_chain_data)).matchedPair = some (mh, md)) :=
  rule_match_exact_token id off_chain_data (serializeOffChain off_chain_data) (by decide)
